import Mathlib

/-!
Verification of the reliable-delivery layer (`ReliableRouter.cpp`) of the
meshtastic firmware.  The three entry points `send`, `shouldFilterReceived`
and `sniffReceived` are embedded shallowly: external collaborators (the
flood and unicast strategies, the airtime estimator, the node database, the
channel table, the recency tracker) are oracles gathered in an `Env`
record, calls into collaborators that only produce side effects are
recorded as `Effect` values, and the pending-retransmission table is passed
and returned explicitly.  Machine-integer arithmetic that can overflow
(`nextTxMsec += ...` on `uint32_t`, `hop_limit--` on `uint8_t`) is modelled
with an explicit modulus.
-/

namespace Meshtastic

abbrev NodeNum := Nat

abbrev PacketId := Nat

/-- The three states of `which_payload_variant` of a `meshtastic_MeshPacket`
that the router distinguishes: a decoded payload, an encrypted payload, or
neither. -/
inductive PayloadVariant where
  | decoded
  | encrypted
  | unset
  deriving DecidableEq, Repr

/-- The fields of `meshtastic_MeshPacket` read or written by
`ReliableRouter.cpp`.  `request_id` stands for `p->decoded.request_id`. -/
structure MeshPacket where
  «from» : NodeNum
  «to» : NodeNum
  id : PacketId
  hop_limit : Nat
  hop_start : Nat
  want_ack : Bool
  channel : Nat
  which_payload_variant : PayloadVariant
  request_id : PacketId
  deriving DecidableEq, Repr

/-- Composite key (origin node id, packet id) of the pending table. -/
structure GlobalPacketId where
  node : NodeNum
  id : PacketId
  deriving DecidableEq, Repr

/-- One pending retransmission: the owned copy of the packet, the remaining
retry budget, and the absolute deadline (msec) of the next retry. -/
structure PendingPacket where
  packet : MeshPacket
  numRetransmissions : Nat
  nextTxMsec : Nat
  deriving DecidableEq, Repr

/-- The pending-retransmission table, as an association list keyed by
`GlobalPacketId` (at most one entry per key in every reachable state). -/
abbrev PendingTable := List (GlobalPacketId × PendingPacket)

/-- `meshtastic_Routing_Error` values the router mentions; every other code
is collapsed into `other`. -/
inductive RoutingError where
  | NONE
  | NO_CHANNEL
  | PKI_UNKNOWN_PUBKEY
  | other (code : Nat)
  deriving DecidableEq, Repr

/-- The decoded `meshtastic_Routing` control payload handed to
`sniffReceived` (absent when the packet is not a routing-control packet). -/
structure Routing where
  error_reason : RoutingError
  deriving DecidableEq, Repr

/-- `NODENUM_BROADCAST` (from `mesh-pb-constants.h`): the broadcast
destination address, `0xFFFFFFFF`. -/
def NODENUM_BROADCAST : NodeNum := 4294967295

/-- Modelled from the spec: `HOP_RELIABLE`, the full default relay budget a
flood packet starts with (3 in the reference firmware); `isRepeated`
compares a legacy packet's `hop_limit` against it. -/
def HOP_RELIABLE : Nat := 3

/-- Oracles for every external collaborator `ReliableRouter.cpp` calls:
node identity, configuration, airtime estimation, recency tracking, module
reply state, the node database, the channel table, the owner key, the two
delegated strategies, and the parameters of table enrollment. -/
structure Env where
  /-- `getNodeNum()` / `nodeDB->getNodeNum()`: this node's number. -/
  ourNode : NodeNum
  /-- `Default::getConfiguredOrDefaultHopLimit(config.lora.hop_limit)`. -/
  hopLimitDefault : Nat
  /-- `iface->getPacketTime(p)`: estimated airtime of a packet, msec. -/
  getPacketTime : MeshPacket → Nat
  /-- `wasSeenRecently(p, withUpdate)`: the recency tracker. -/
  wasSeenRecently : MeshPacket → Bool → Bool
  /-- whether `MeshModule::currentReply` is non-null. -/
  currentReply : Bool
  /-- `nodeDB->getMeshNode(n)`: `none` when the node is unknown, otherwise
  the size of its stored public key (`user.public_key.size`). -/
  getMeshNodeKeySize : NodeNum → Option Nat
  /-- `channels.getPrimaryIndex()`. -/
  primaryIndex : Nat
  /-- `owner.public_key.size`: this node's own public-key size. -/
  ownerPublicKeySize : Nat
  /-- result of `FloodingRouter::send(p)`. -/
  floodSendResult : MeshPacket → Nat
  /-- result of `NextHopRouter::send(p)`. -/
  unicastSendResult : MeshPacket → Nat
  /-- result of `FloodingRouter::shouldFilterReceived(p)`. -/
  floodFilterResult : MeshPacket → Bool
  /-- result of `NextHopRouter::shouldFilterReceived(p)`. -/
  unicastFilterResult : MeshPacket → Bool
  /-- Modelled from the spec: the configured maximum retry budget a new
  pending entry starts with (e.g. 3). -/
  maxRetransmissions : Nat
  /-- Modelled from the spec: the initial retry deadline computed when a
  packet is enrolled (now + a base interval derived from the per-packet
  transmit time, scaled by hop count). -/
  initialDeadline : MeshPacket → Nat

/-- Modelled from the spec: `getFrom(p)` (declared in `MeshTypes.h`, outside
`src/`): the packet's logical origin — the `from` field, except that a
locally queued packet with `from == 0` counts as originating at this node. -/
def getFrom (ourNode : NodeNum) (p : MeshPacket) : NodeNum :=
  if p.«from» = 0 then ourNode else p.«from»

/-- Modelled from the spec: `findPendingPacket(key)` returns the pending
entry under `key` if present, else signals "not found". -/
def findPendingPacket (pending : PendingTable) (key : GlobalPacketId) :
    Option PendingPacket :=
  (pending.find? fun e => decide (e.1 = key)).map Prod.snd

/-- Modelled from the spec: `stopRetransmission(key)` removes the entry
under `key` if present, and is a no-op (not an error) if absent. -/
def stopRetransmission (pending : PendingTable) (key : GlobalPacketId) :
    PendingTable :=
  pending.filter fun e => decide (e.1 ≠ key)

/-- Modelled from the spec: `startRetransmission(p)` clones the packet,
gives it the configured maximum retry budget and an initial retry deadline,
and inserts it under the packet's `GlobalPacketId` (origin = this node for
locally originated packets, via `getFrom`). -/
def startRetransmission (env : Env) (pending : PendingTable) (p : MeshPacket) :
    PendingTable :=
  (⟨getFrom env.ourNode p, p.id⟩,
    (⟨p, env.maxRetransmissions, env.initialDeadline p⟩ : PendingPacket)) :: pending

/-- Calls into side-effecting collaborators, in program order. -/
inductive Effect where
  /-- `sendAckNak(err, to, id, chIndex)` — the two trailing arguments are
  `none` for the four-argument overload. -/
  | sendAckNak (err : RoutingError) (dest : NodeNum) (id : PacketId)
      (chIndex : Nat) (hopStart hopLimit : Option Nat)
  /-- `Router::send(p)`: the generic send/relay path, bypassing
  reliability enrollment. -/
  | routerSend (p : MeshPacket)
  /-- `nodeInfoModule->sendOurNodeInfo(dest, wantReplies, channel,
  shorterTimeout)`. -/
  | sendOurNodeInfo (dest : NodeNum) (wantReplies : Bool) (channel : Nat)
      (shorterTimeout : Bool)
  /-- delegation to `FloodingRouter::send(p)`. -/
  | floodSend (p : MeshPacket)
  /-- delegation to `NextHopRouter::send(p)`. -/
  | unicastSend (p : MeshPacket)
  /-- delegation to `FloodingRouter::sniffReceived(p, c)`. -/
  | floodSniff (p : MeshPacket) (c : Option Routing)
  /-- delegation to `NextHopRouter::sniffReceived(p, c)`. -/
  | unicastSniff (p : MeshPacket) (c : Option Routing)
  deriving DecidableEq, Repr

/-- `uint32_t` wraparound for `nextTxMsec += ...`. -/
def UINT32_MOD : Nat := 4294967296

namespace ReliableRouter

/-- The packet as it stands after the in-place normalization at the top of
`ReliableRouter::send`: a `want_ack` packet with `hop_limit == 0` gets the
configured default hop limit; every other packet is untouched. -/
def sentPacket (env : Env) (p : MeshPacket) : MeshPacket :=
  if p.want_ack = true ∧ p.hop_limit = 0 then
    { p with hop_limit := env.hopLimitDefault }
  else p

/-- The airtime-adjustment loop of `ReliableRouter::send`: every pending
entry whose key's `id` differs from the packet's `id` has its deadline
advanced by the packet's airtime (`uint32_t` addition). -/
def sendAdjust (env : Env) (p : MeshPacket) (pending : PendingTable) :
    PendingTable :=
  pending.map fun e =>
    if e.1.id = p.id then e
    else (e.1, { e.2 with
      nextTxMsec := (e.2.nextTxMsec + env.getPacketTime p) % UINT32_MOD })

/-- Everything `ReliableRouter::send` leaves behind: the caller's packet
(mutated in place by the hop-limit rewrite), the new pending table, the
collaborator calls made, and the returned `ErrorCode`. -/
structure SendResult where
  packet : MeshPacket
  pending : PendingTable
  effects : List Effect
  result : Nat
  deriving Repr

/-- `ReliableRouter::send` (ReliableRouter.cpp:15-39): normalize the hop
limit of a `want_ack` packet, enroll a clone in the pending table, extend
every other pending deadline by this packet's airtime, then delegate to the
flood strategy for broadcast destinations and the unicast strategy
otherwise. -/
def send (env : Env) (pending : PendingTable) (p : MeshPacket) : SendResult :=
  let p1 := sentPacket env p
  let pending1 := if p1.want_ack then startRetransmission env pending p1 else pending
  let pending2 := sendAdjust env p1 pending1
  if p1.«to» = NODENUM_BROADCAST then
    ⟨p1, pending2, [Effect.floodSend p1], env.floodSendResult p1⟩
  else
    ⟨p1, pending2, [Effect.unicastSend p1], env.unicastSendResult p1⟩

/-- The self-heard-rebroadcast step of `ReliableRouter::shouldFilterReceived`
(ReliableRouter.cpp:44-65): when the packet's raw `from` field equals this
node's number, look the packet's `GlobalPacketId` (origin via `getFrom`) up
in the pending table; if an entry is found, synthesize a no-error
acknowledgment for the original sending process and cancel the entry.
Returns the table and the effects of this step. -/
def selfHeardStep (env : Env) (pending : PendingTable) (p : MeshPacket) :
    PendingTable × List Effect :=
  if p.«from» = env.ourNode then
    let key : GlobalPacketId := ⟨getFrom env.ourNode p, p.id⟩
    match findPendingPacket pending key with
    | some old =>
        (stopRetransmission pending key,
          [Effect.sendAckNak RoutingError.NONE (getFrom env.ourNode p) p.id
            old.packet.channel none none])
    | none => (pending, [])
  else (pending, [])

/-- The airtime-adjustment loop of `ReliableRouter::shouldFilterReceived`
(ReliableRouter.cpp:72-74): every pending entry's deadline is advanced by
the received packet's airtime (`uint32_t` addition). -/
def recvAdjust (env : Env) (p : MeshPacket) (pending : PendingTable) :
    PendingTable :=
  pending.map fun e =>
    (e.1, { e.2 with
      nextTxMsec := (e.2.nextTxMsec + env.getPacketTime p) % UINT32_MOD })

/-- `isRepeated` (ReliableRouter.cpp:80): a packet is repeated when its
hop-start is unset and its hop-limit equals `HOP_RELIABLE`, or its
hop-start equals its hop-limit. -/
def isRepeated (p : MeshPacket) : Bool :=
  if p.hop_start = 0 then decide (p.hop_limit = HOP_RELIABLE)
  else decide (p.hop_start = p.hop_limit)

/-- The repeated-flood re-emission step of
`ReliableRouter::shouldFilterReceived` (ReliableRouter.cpp:80-86): a
repeated packet that was seen recently, has no module reply, and is not
addressed to this node is cloned, its hop-limit decremented (`uint8_t`
decrement), and handed to the generic `Router::send` path. -/
def repeatedFloodStep (env : Env) (p : MeshPacket) : List Effect :=
  if env.wasSeenRecently p false = true ∧ isRepeated p = true ∧
      env.currentReply = false ∧ p.«to» ≠ env.ourNode then
    [Effect.routerSend { p with hop_limit := (p.hop_limit + 255) % 256 }]
  else []

/-- Everything `ReliableRouter::shouldFilterReceived` leaves behind: the new
pending table, the collaborator calls made, and the returned filter
decision. -/
structure FilterResult where
  pending : PendingTable
  effects : List Effect
  result : Bool
  deriving Repr

/-- `ReliableRouter::shouldFilterReceived` (ReliableRouter.cpp:41-89):
cancel a pending entry on overhearing a self-originated rebroadcast
(synthesizing an internal ack), extend every pending deadline by the
received packet's airtime, re-emit repeated flood packets with a
decremented hop-limit, then delegate the filtering decision to the flood
strategy for broadcast destinations and the unicast strategy otherwise. -/
def shouldFilterReceived (env : Env) (pending : PendingTable)
    (p : MeshPacket) : FilterResult :=
  let s1 := selfHeardStep env pending p
  { pending := recvAdjust env p s1.1
    effects := s1.2 ++ repeatedFloodStep env p
    result := if p.«to» = NODENUM_BROADCAST then env.floodFilterResult p
      else env.unicastFilterResult p }

/-- The `want_ack` reply classification of `ReliableRouter::sniffReceived`
(ReliableRouter.cpp:108-123), for a packet addressed to this node: skip
when another module already replied; otherwise acknowledge with no-error
for a decoded payload, with `PKI_UNKNOWN_PUBKEY` for an encrypted payload
on channel 0 from a peer with no known public key, and with `NO_CHANNEL`
in every other case. -/
def wantAckReply (env : Env) (p : MeshPacket) : List Effect :=
  if env.currentReply = true then []
  else if p.which_payload_variant = PayloadVariant.decoded then
    [Effect.sendAckNak RoutingError.NONE (getFrom env.ourNode p) p.id
      p.channel (some p.hop_start) (some p.hop_limit)]
  else if p.which_payload_variant = PayloadVariant.encrypted ∧ p.channel = 0 ∧
      (env.getMeshNodeKeySize p.«from» = none ∨
        env.getMeshNodeKeySize p.«from» = some 0) then
    [Effect.sendAckNak RoutingError.PKI_UNKNOWN_PUBKEY (getFrom env.ourNode p)
      p.id env.primaryIndex (some p.hop_start) (some p.hop_limit)]
  else
    [Effect.sendAckNak RoutingError.NO_CHANNEL (getFrom env.ourNode p) p.id
      env.primaryIndex (some p.hop_start) (some p.hop_limit)]

/-- The remote-PKI-failure step of `ReliableRouter::sniffReceived`
(ReliableRouter.cpp:124-130): a decoded routing-control packet reporting
`PKI_UNKNOWN_PUBKEY`, when this node's own public key is configured
(size 32), triggers sending our node info back to the packet's `from`. -/
def pkiNodeInfoStep (env : Env) (p : MeshPacket) (c : Option Routing) :
    List Effect :=
  match c with
  | some r =>
      if p.which_payload_variant = PayloadVariant.decoded ∧
          r.error_reason = RoutingError.PKI_UNKNOWN_PUBKEY ∧
          env.ownerPublicKeySize = 32 then
        [Effect.sendOurNodeInfo p.«from» false p.channel true]
      else []
  | none => []

/-- `ackId` (ReliableRouter.cpp:132): the correlation id to treat as an
ack — the packet's `request_id` when the packet is non-routing (`c` absent)
or a routing-control packet with no error; `0` (no id) otherwise. -/
def ackId (p : MeshPacket) (c : Option Routing) : PacketId :=
  match c with
  | some r => if r.error_reason = RoutingError.NONE then p.request_id else 0
  | none => p.request_id

/-- `nakId` (ReliableRouter.cpp:135): the correlation id to treat as a
nak — the packet's `request_id` when the packet is a routing-control packet
with a non-empty error; `0` (no id) otherwise. -/
def nakId (p : MeshPacket) (c : Option Routing) : PacketId :=
  match c with
  | some r => if r.error_reason ≠ RoutingError.NONE then p.request_id else 0
  | none => 0

/-- The retransmission-cancellation step of `ReliableRouter::sniffReceived`
(ReliableRouter.cpp:138-146): a nonzero ack or nak correlation id cancels
the pending entry keyed by (the packet's destination, that id). -/
def sniffStop (pending : PendingTable) (p : MeshPacket) (c : Option Routing) :
    PendingTable :=
  if ackId p c ≠ 0 then stopRetransmission pending ⟨p.«to», ackId p c⟩
  else if nakId p c ≠ 0 then stopRetransmission pending ⟨p.«to», nakId p c⟩
  else pending

/-- Everything `ReliableRouter::sniffReceived` leaves behind: the new
pending table and the collaborator calls made. -/
structure SniffResult where
  pending : PendingTable
  effects : List Effect
  deriving Repr

/-- `ReliableRouter::sniffReceived` (ReliableRouter.cpp:103-150): for a
packet addressed to this node, reply to `want_ack` requests, answer remote
PKI decrypt failures with our node info, and cancel the pending entry named
by an ack or nak correlation id; finally delegate to the flood strategy for
broadcast destinations and the unicast strategy otherwise. -/
def sniffReceived (env : Env) (pending : PendingTable) (p : MeshPacket)
    (c : Option Routing) : SniffResult :=
  let delegate : Effect :=
    if p.«to» = NODENUM_BROADCAST then Effect.floodSniff p c
    else Effect.unicastSniff p c
  if p.«to» = env.ourNode then
    { pending := sniffStop pending p c
      effects := (if p.want_ack then wantAckReply env p else []) ++
        pkiNodeInfoStep env p c ++ [delegate] }
  else
    { pending := pending, effects := [delegate] }

end ReliableRouter

/-! ### Basic lemmas about the pending table -/

theorem stopRetransmission_of_absent (pending : PendingTable)
    (key : GlobalPacketId) (h : findPendingPacket pending key = none) :
    stopRetransmission pending key = pending := by
  unfold findPendingPacket at h
  rw [Option.map_eq_none', List.find?_eq_none] at h
  refine List.filter_eq_self.mpr ?_
  intro e he
  simpa using h e he

theorem findPendingPacket_stopRetransmission_self (pending : PendingTable)
    (key : GlobalPacketId) :
    findPendingPacket (stopRetransmission pending key) key = none := by
  unfold findPendingPacket
  rw [Option.map_eq_none', List.find?_eq_none]
  intro e he
  have hmem := List.of_mem_filter he
  simp only [decide_eq_true_eq] at hmem ⊢
  exact fun hk => hmem hk

theorem findPendingPacket_recvAdjust_none (env : Env) (p : MeshPacket)
    (pending : PendingTable) (key : GlobalPacketId)
    (h : findPendingPacket pending key = none) :
    findPendingPacket (ReliableRouter.recvAdjust env p pending) key = none := by
  unfold findPendingPacket at h ⊢
  rw [Option.map_eq_none', List.find?_eq_none] at h ⊢
  intro e he
  rw [ReliableRouter.recvAdjust, List.mem_map] at he
  obtain ⟨a, ha, rfl⟩ := he
  simpa using h a ha

/-! ### Decomposition of `send` -/

theorem sentPacket_from (env : Env) (p : MeshPacket) :
    (ReliableRouter.sentPacket env p).«from» = p.«from» := by
  unfold ReliableRouter.sentPacket; split <;> rfl

theorem sentPacket_to (env : Env) (p : MeshPacket) :
    (ReliableRouter.sentPacket env p).«to» = p.«to» := by
  unfold ReliableRouter.sentPacket; split <;> rfl

theorem sentPacket_id (env : Env) (p : MeshPacket) :
    (ReliableRouter.sentPacket env p).id = p.id := by
  unfold ReliableRouter.sentPacket; split <;> rfl

theorem sentPacket_want_ack (env : Env) (p : MeshPacket) :
    (ReliableRouter.sentPacket env p).want_ack = p.want_ack := by
  unfold ReliableRouter.sentPacket; split <;> rfl

theorem getFrom_sentPacket (env : Env) (p : MeshPacket) :
    getFrom env.ourNode (ReliableRouter.sentPacket env p) =
      getFrom env.ourNode p := by
  unfold getFrom
  rw [sentPacket_from]

theorem send_packet_eq (env : Env) (pending : PendingTable) (p : MeshPacket) :
    (ReliableRouter.send env pending p).packet =
      ReliableRouter.sentPacket env p := by
  simp only [ReliableRouter.send]
  split <;> rfl

theorem send_pending_eq (env : Env) (pending : PendingTable) (p : MeshPacket) :
    (ReliableRouter.send env pending p).pending =
      ReliableRouter.sendAdjust env (ReliableRouter.sentPacket env p)
        (if (ReliableRouter.sentPacket env p).want_ack then
          startRetransmission env pending (ReliableRouter.sentPacket env p)
        else pending) := by
  simp only [ReliableRouter.send]
  split <;> rfl

theorem send_effects_eq (env : Env) (pending : PendingTable) (p : MeshPacket) :
    (ReliableRouter.send env pending p).effects =
      [if p.«to» = NODENUM_BROADCAST then
        Effect.floodSend (ReliableRouter.sentPacket env p)
      else Effect.unicastSend (ReliableRouter.sentPacket env p)] := by
  by_cases hto : p.«to» = NODENUM_BROADCAST
  · simp [ReliableRouter.send, sentPacket_to, hto]
  · simp [ReliableRouter.send, sentPacket_to, hto]

theorem send_result_eq (env : Env) (pending : PendingTable) (p : MeshPacket) :
    (ReliableRouter.send env pending p).result =
      (if p.«to» = NODENUM_BROADCAST then
        env.floodSendResult (ReliableRouter.sentPacket env p)
      else env.unicastSendResult (ReliableRouter.sentPacket env p)) := by
  by_cases hto : p.«to» = NODENUM_BROADCAST
  · simp [ReliableRouter.send, sentPacket_to, hto]
  · simp [ReliableRouter.send, sentPacket_to, hto]

/-- The entry enrolled by a `want_ack` send survives the airtime adjustment
untouched and is what `findPendingPacket` returns for the packet's key. -/
theorem send_find_new (env : Env) (pending : PendingTable) (p : MeshPacket)
    (hack : p.want_ack = true) :
    findPendingPacket (ReliableRouter.send env pending p).pending
        ⟨getFrom env.ourNode p, p.id⟩ =
      some ⟨ReliableRouter.sentPacket env p, env.maxRetransmissions,
        env.initialDeadline (ReliableRouter.sentPacket env p)⟩ := by
  rw [send_pending_eq]
  rw [if_pos (by rw [sentPacket_want_ack]; exact hack)]
  unfold startRetransmission ReliableRouter.sendAdjust findPendingPacket
  rw [List.map_cons]
  simp only [sentPacket_id, getFrom_sentPacket, if_pos rfl]
  rw [List.find?_cons_of_pos _ (by simp)]
  rfl

/-! ### Claim C1 -/

/-- C1: for every packet with `want_ack` set and `hop_limit` zero,
`ReliableRouter.send` rewrites the packet's hop limit to the configured
default, registers a clone of the (rewritten) packet in the pending table
under the packet's `GlobalPacketId`, and delegates transmission to the
flood strategy when the destination is broadcast and to the unicast
strategy otherwise. -/
theorem claim_C1_reliable_send (env : Env) (pending : PendingTable)
    (p : MeshPacket) (hack : p.want_ack = true) (hhop : p.hop_limit = 0) :
    (ReliableRouter.send env pending p).packet.hop_limit = env.hopLimitDefault ∧
    findPendingPacket (ReliableRouter.send env pending p).pending
        ⟨getFrom env.ourNode p, p.id⟩ =
      some ⟨(ReliableRouter.send env pending p).packet, env.maxRetransmissions,
        env.initialDeadline (ReliableRouter.send env pending p).packet⟩ ∧
    (p.«to» = NODENUM_BROADCAST →
      (ReliableRouter.send env pending p).effects =
        [Effect.floodSend (ReliableRouter.send env pending p).packet]) ∧
    (p.«to» ≠ NODENUM_BROADCAST →
      (ReliableRouter.send env pending p).effects =
        [Effect.unicastSend (ReliableRouter.send env pending p).packet]) := by
  have hp1 : ReliableRouter.sentPacket env p =
      { p with hop_limit := env.hopLimitDefault } := by
    unfold ReliableRouter.sentPacket
    exact if_pos ⟨hack, hhop⟩
  refine ⟨?_, ?_, fun hto => ?_, fun hto => ?_⟩
  · rw [send_packet_eq, hp1]
  · rw [send_packet_eq, send_find_new env pending p hack]
  · rw [send_effects_eq, send_packet_eq, if_pos hto]
  · rw [send_effects_eq, send_packet_eq, if_neg hto]

/-! ### Decomposition of `shouldFilterReceived` and `sniffReceived` -/

theorem shouldFilter_pending_eq (env : Env) (pending : PendingTable)
    (p : MeshPacket) :
    (ReliableRouter.shouldFilterReceived env pending p).pending =
      ReliableRouter.recvAdjust env p
        (ReliableRouter.selfHeardStep env pending p).1 := rfl

theorem shouldFilter_effects_eq (env : Env) (pending : PendingTable)
    (p : MeshPacket) :
    (ReliableRouter.shouldFilterReceived env pending p).effects =
      (ReliableRouter.selfHeardStep env pending p).2 ++
        ReliableRouter.repeatedFloodStep env p := rfl

theorem sniff_pending_eq (env : Env) (pending : PendingTable) (p : MeshPacket)
    (c : Option Routing) (hto : p.«to» = env.ourNode) :
    (ReliableRouter.sniffReceived env pending p c).pending =
      ReliableRouter.sniffStop pending p c := by
  simp only [ReliableRouter.sniffReceived]
  rw [if_pos hto]

theorem sniff_effects_eq (env : Env) (pending : PendingTable) (p : MeshPacket)
    (c : Option Routing) (hto : p.«to» = env.ourNode) :
    (ReliableRouter.sniffReceived env pending p c).effects =
      (if p.want_ack then ReliableRouter.wantAckReply env p else []) ++
        ReliableRouter.pkiNodeInfoStep env p c ++
        [if p.«to» = NODENUM_BROADCAST then Effect.floodSniff p c
         else Effect.unicastSniff p c] := by
  simp only [ReliableRouter.sniffReceived]
  rw [if_pos hto]

/-! ### Claim C2 -/

/-- C2: every packet addressed to this node that is a non-routing packet
carrying a request-correlation id, a routing-control packet with no error
(ack), or a routing-control packet with a non-empty error (nak), has the
pending entry keyed by (this node as destination, that correlation id)
cancelled by `sniffReceived`; cancelling an absent entry is a no-op rather
than an error. -/
theorem claim_C2_acknak_cancellation (env : Env) (pending : PendingTable)
    (p : MeshPacket) (c : Option Routing)
    (hto : p.«to» = env.ourNode) (hreq : p.request_id ≠ 0)
    (hclass : c = none ∨
      (∃ r, c = some r ∧ r.error_reason = RoutingError.NONE) ∨
      (∃ r, c = some r ∧ r.error_reason ≠ RoutingError.NONE)) :
    (ReliableRouter.sniffReceived env pending p c).pending =
      stopRetransmission pending ⟨env.ourNode, p.request_id⟩ ∧
    (findPendingPacket pending ⟨env.ourNode, p.request_id⟩ = none →
      (ReliableRouter.sniffReceived env pending p c).pending = pending) := by
  have hstop : ReliableRouter.sniffStop pending p c =
      stopRetransmission pending ⟨p.«to», p.request_id⟩ := by
    rcases hclass with rfl | ⟨r, rfl, herr⟩ | ⟨r, rfl, herr⟩
    · simp [ReliableRouter.sniffStop, ReliableRouter.ackId, hreq]
    · simp [ReliableRouter.sniffStop, ReliableRouter.ackId, herr, hreq]
    · simp [ReliableRouter.sniffStop, ReliableRouter.ackId,
        ReliableRouter.nakId, herr, hreq]
  constructor
  · rw [sniff_pending_eq env pending p c hto, hstop, hto]
  · intro habs
    rw [sniff_pending_eq env pending p c hto, hstop, hto]
    exact stopRetransmission_of_absent pending _ habs

/-- A concrete collaborator environment used by witnesses. -/
def envW : Env where
  ourNode := 1
  hopLimitDefault := 3
  getPacketTime := fun _ => 100
  wasSeenRecently := fun _ _ => true
  currentReply := false
  getMeshNodeKeySize := fun _ => none
  primaryIndex := 0
  ownerPublicKeySize := 32
  floodSendResult := fun _ => 2
  unicastSendResult := fun _ => 2
  floodFilterResult := fun _ => false
  unicastFilterResult := fun _ => false
  maxRetransmissions := 3
  initialDeadline := fun _ => 1000

/-- A concrete reliable broadcast packet with hop limit zero. -/
def pW1 : MeshPacket where
  «from» := 0
  «to» := NODENUM_BROADCAST
  id := 7
  hop_limit := 0
  hop_start := 0
  want_ack := true
  channel := 0
  which_payload_variant := PayloadVariant.decoded
  request_id := 0

/-- Witness for C1 at a concrete broadcast packet and the empty table. -/
theorem claim_C1_reliable_send_witness :
    pW1.want_ack = true ∧ pW1.hop_limit = 0 ∧
    ((ReliableRouter.send envW [] pW1).packet.hop_limit = envW.hopLimitDefault ∧
     findPendingPacket (ReliableRouter.send envW [] pW1).pending
         ⟨getFrom envW.ourNode pW1, pW1.id⟩ =
       some ⟨(ReliableRouter.send envW [] pW1).packet, envW.maxRetransmissions,
         envW.initialDeadline (ReliableRouter.send envW [] pW1).packet⟩ ∧
     (pW1.«to» = NODENUM_BROADCAST →
       (ReliableRouter.send envW [] pW1).effects =
         [Effect.floodSend (ReliableRouter.send envW [] pW1).packet]) ∧
     (pW1.«to» ≠ NODENUM_BROADCAST →
       (ReliableRouter.send envW [] pW1).effects =
         [Effect.unicastSend (ReliableRouter.send envW [] pW1).packet])) :=
  ⟨rfl, rfl, claim_C1_reliable_send envW [] pW1 rfl rfl⟩

/-- A concrete non-routing packet addressed to node 1 carrying
request-correlation id 42. -/
def pW2 : MeshPacket where
  «from» := 5
  «to» := 1
  id := 9
  hop_limit := 3
  hop_start := 3
  want_ack := false
  channel := 0
  which_payload_variant := PayloadVariant.decoded
  request_id := 42

/-- A concrete pending table holding one entry under key (1, 42). -/
def tblW : PendingTable := [(⟨1, 42⟩, ⟨pW1, 3, 500⟩)]

/-- Witness for C2: a non-routing packet with request id 42 cancels the
pending entry keyed (1, 42). -/
theorem claim_C2_acknak_cancellation_witness :
    pW2.«to» = envW.ourNode ∧ pW2.request_id ≠ 0 ∧
    ((ReliableRouter.sniffReceived envW tblW pW2 none).pending =
        stopRetransmission tblW ⟨envW.ourNode, pW2.request_id⟩ ∧
     (findPendingPacket tblW ⟨envW.ourNode, pW2.request_id⟩ = none →
        (ReliableRouter.sniffReceived envW tblW pW2 none).pending = tblW)) :=
  ⟨rfl, by decide,
    claim_C2_acknak_cancellation envW tblW pW2 none rfl (by decide) (Or.inl rfl)⟩

/-! ### Claim C3 -/

theorem findPendingPacket_selfHeard_none (env : Env) (pending : PendingTable)
    (p : MeshPacket) (k : GlobalPacketId)
    (h : findPendingPacket pending k = none) :
    findPendingPacket (ReliableRouter.selfHeardStep env pending p).1 k = none := by
  unfold ReliableRouter.selfHeardStep
  split
  · dsimp only
    split
    · dsimp only
      unfold stopRetransmission
      unfold findPendingPacket at h ⊢
      rw [Option.map_eq_none', List.find?_eq_none] at h ⊢
      intro e he
      exact h e (List.mem_of_mem_filter he)
    · exact h
  · exact h

/-- C3: a received packet whose raw `from` field equals this node's number
is an overheard self-rebroadcast; when a pending entry matching the
packet's `GlobalPacketId` (origin via `getFrom`) exists, a no-error
acknowledgment is synthesized, the entry is cancelled, and it is absent
from the table `shouldFilterReceived` leaves behind (so it is never
retransmitted); when no entry exists, the self-heard step leaves the table
unchanged and synthesizes nothing. -/
theorem claim_C3_implicit_ack_on_rebroadcast (env : Env)
    (pending : PendingTable) (p : MeshPacket)
    (hfrom : p.«from» = env.ourNode) :
    (∀ old, findPendingPacket pending ⟨getFrom env.ourNode p, p.id⟩ = some old →
      (ReliableRouter.selfHeardStep env pending p).2 =
        [Effect.sendAckNak RoutingError.NONE (getFrom env.ourNode p) p.id
          old.packet.channel none none] ∧
      (ReliableRouter.selfHeardStep env pending p).1 =
        stopRetransmission pending ⟨getFrom env.ourNode p, p.id⟩ ∧
      findPendingPacket (ReliableRouter.shouldFilterReceived env pending p).pending
        ⟨getFrom env.ourNode p, p.id⟩ = none) ∧
    (findPendingPacket pending ⟨getFrom env.ourNode p, p.id⟩ = none →
      (ReliableRouter.selfHeardStep env pending p).1 = pending ∧
      (ReliableRouter.selfHeardStep env pending p).2 = []) := by
  constructor
  · intro old hfind
    have h1 : (ReliableRouter.selfHeardStep env pending p).1 =
        stopRetransmission pending ⟨getFrom env.ourNode p, p.id⟩ := by
      unfold ReliableRouter.selfHeardStep
      rw [if_pos hfrom]
      dsimp only
      rw [hfind]
    have h2 : (ReliableRouter.selfHeardStep env pending p).2 =
        [Effect.sendAckNak RoutingError.NONE (getFrom env.ourNode p) p.id
          old.packet.channel none none] := by
      unfold ReliableRouter.selfHeardStep
      rw [if_pos hfrom]
      dsimp only
      rw [hfind]
    refine ⟨h2, h1, ?_⟩
    rw [shouldFilter_pending_eq]
    apply findPendingPacket_recvAdjust_none
    rw [h1]
    exact findPendingPacket_stopRetransmission_self pending _
  · intro hfind
    constructor
    · unfold ReliableRouter.selfHeardStep
      rw [if_pos hfrom]
      dsimp only
      rw [hfind]
    · unfold ReliableRouter.selfHeardStep
      rw [if_pos hfrom]
      dsimp only
      rw [hfind]

/-- A concrete overheard rebroadcast: raw `from` equals node 1, id 7. -/
def pW3 : MeshPacket where
  «from» := 1
  «to» := NODENUM_BROADCAST
  id := 7
  hop_limit := 2
  hop_start := 3
  want_ack := false
  channel := 4
  which_payload_variant := PayloadVariant.encrypted
  request_id := 0

/-- A concrete pending table holding the entry the rebroadcast of `pW3`
acknowledges, under key (1, 7). -/
def tblW3 : PendingTable := [(⟨1, 7⟩, ⟨pW1, 2, 600⟩)]

/-- Witness for C3: overhearing `pW3` cancels the entry under (1, 7) and
synthesizes a no-error ack on the pending copy's channel. -/
theorem claim_C3_implicit_ack_on_rebroadcast_witness :
    pW3.«from» = envW.ourNode ∧
    findPendingPacket tblW3 ⟨getFrom envW.ourNode pW3, pW3.id⟩ =
      some ⟨pW1, 2, 600⟩ ∧
    ((ReliableRouter.selfHeardStep envW tblW3 pW3).2 =
      [Effect.sendAckNak RoutingError.NONE (getFrom envW.ourNode pW3) pW3.id
        (⟨pW1, 2, 600⟩ : PendingPacket).packet.channel none none] ∧
     (ReliableRouter.selfHeardStep envW tblW3 pW3).1 =
       stopRetransmission tblW3 ⟨getFrom envW.ourNode pW3, pW3.id⟩ ∧
     findPendingPacket
       (ReliableRouter.shouldFilterReceived envW tblW3 pW3).pending
       ⟨getFrom envW.ourNode pW3, pW3.id⟩ = none) :=
  ⟨rfl, rfl,
    (claim_C3_implicit_ack_on_rebroadcast envW tblW3 pW3 rfl).1 ⟨pW1, 2, 600⟩ rfl⟩

/-! ### Claim C4 -/

/-- When no pre-existing entry shares the sent packet's id, the send-path
airtime loop adjusts every pre-existing entry by exactly the packet's
airtime (absent `uint32_t` overflow). -/
theorem sendAdjust_of_fresh (env : Env) (p : MeshPacket) (l : PendingTable)
    (h1 : ∀ e ∈ l, (e : GlobalPacketId × PendingPacket).1.id ≠ p.id)
    (h2 : ∀ e ∈ l, (e : GlobalPacketId × PendingPacket).2.nextTxMsec +
      env.getPacketTime (ReliableRouter.sentPacket env p) < UINT32_MOD) :
    ReliableRouter.sendAdjust env (ReliableRouter.sentPacket env p) l =
      l.map fun e => (e.1, { e.2 with
        nextTxMsec := e.2.nextTxMsec +
          env.getPacketTime (ReliableRouter.sentPacket env p) }) := by
  unfold ReliableRouter.sendAdjust
  apply List.map_congr_left
  intro e he
  rw [if_neg (by rw [sentPacket_id]; exact h1 e he)]
  rw [Nat.mod_eq_of_lt (h2 e he)]

/-- C4: during `send`, every pending entry other than the entry just
created for this packet has its deadline increased by exactly the packet's
estimated airtime; the entry just created (present exactly when `want_ack`
is set) is left unchanged by the adjustment; no other field of any entry is
modified.  The hypotheses are the table invariants: the sent packet's id is
not already pending (ids are assigned per origin and re-enrollment is
undefined by design) and no deadline overflows `uint32_t`. -/
theorem claim_C4_send_airtime_adjustment (env : Env) (pending : PendingTable)
    (p : MeshPacket)
    (hfresh : ∀ e ∈ pending, (e : GlobalPacketId × PendingPacket).1.id ≠ p.id)
    (hnof : ∀ e ∈ pending, (e : GlobalPacketId × PendingPacket).2.nextTxMsec +
      env.getPacketTime (ReliableRouter.sentPacket env p) < UINT32_MOD) :
    (ReliableRouter.send env pending p).pending =
      (if p.want_ack then
        [(⟨getFrom env.ourNode p, p.id⟩,
          (⟨ReliableRouter.sentPacket env p, env.maxRetransmissions,
            env.initialDeadline (ReliableRouter.sentPacket env p)⟩ :
              PendingPacket))]
      else []) ++
      pending.map fun e => (e.1, { e.2 with
        nextTxMsec := e.2.nextTxMsec +
          env.getPacketTime (ReliableRouter.sentPacket env p) }) := by
  rw [send_pending_eq]
  by_cases hw : p.want_ack = true
  · rw [if_pos (by rw [sentPacket_want_ack]; exact hw), if_pos hw]
    unfold startRetransmission ReliableRouter.sendAdjust
    rw [List.map_cons]
    rw [if_pos rfl]
    rw [List.singleton_append]
    congr 1
    · rw [getFrom_sentPacket, sentPacket_id]
    · have := sendAdjust_of_fresh env p pending hfresh hnof
      unfold ReliableRouter.sendAdjust at this
      exact this
  · rw [if_neg (by rw [sentPacket_want_ack]; exact hw),
      if_neg hw, List.nil_append]
    exact sendAdjust_of_fresh env p pending hfresh hnof

/-- A second pre-existing pending entry under key (1, 99) with deadline
500. -/
def tblW4 : PendingTable := [(⟨1, 99⟩, ⟨pW2, 3, 500⟩)]

/-- Witness for C4: sending reliable packet `pW1` (id 7) prepends its own
fresh entry and advances the (1, 99) entry's deadline by exactly the
packet airtime 100, without touching its other fields. -/
theorem claim_C4_send_airtime_adjustment_witness :
    (∀ e ∈ tblW4, (e : GlobalPacketId × PendingPacket).1.id ≠ pW1.id) ∧
    (ReliableRouter.send envW tblW4 pW1).pending =
      (if pW1.want_ack then
        [(⟨getFrom envW.ourNode pW1, pW1.id⟩,
          (⟨ReliableRouter.sentPacket envW pW1, envW.maxRetransmissions,
            envW.initialDeadline (ReliableRouter.sentPacket envW pW1)⟩ :
              PendingPacket))]
      else []) ++
      tblW4.map fun e => (e.1, { e.2 with
        nextTxMsec := e.2.nextTxMsec +
          envW.getPacketTime (ReliableRouter.sentPacket envW pW1) }) :=
  have hfresh : ∀ e ∈ tblW4,
      (e : GlobalPacketId × PendingPacket).1.id ≠ pW1.id := by
    intro e he
    rw [show tblW4 = [(⟨1, 99⟩, ⟨pW2, 3, 500⟩)] from rfl,
      List.mem_singleton] at he
    subst he
    decide
  ⟨hfresh, claim_C4_send_airtime_adjustment envW tblW4 pW1 hfresh
    (by
      intro e he
      rw [show tblW4 = [(⟨1, 99⟩, ⟨pW2, 3, 500⟩)] from rfl,
        List.mem_singleton] at he
      subst he
      decide)⟩

/-! ### Claim C5 -/

/-- C5: after the self-heard implicit-acknowledgment step of
`shouldFilterReceived`, every remaining pending entry's deadline is pushed
forward by exactly the received packet's estimated airtime (absent
`uint32_t` overflow), and nothing else about the entries changes. -/
theorem claim_C5_receive_airtime_adjustment (env : Env)
    (pending : PendingTable) (p : MeshPacket)
    (hnof : ∀ e ∈ (ReliableRouter.selfHeardStep env pending p).1,
      (e : GlobalPacketId × PendingPacket).2.nextTxMsec +
        env.getPacketTime p < UINT32_MOD) :
    (ReliableRouter.shouldFilterReceived env pending p).pending =
      ((ReliableRouter.selfHeardStep env pending p).1).map fun e =>
        (e.1, { e.2 with
          nextTxMsec := e.2.nextTxMsec + env.getPacketTime p }) := by
  rw [shouldFilter_pending_eq]
  unfold ReliableRouter.recvAdjust
  apply List.map_congr_left
  intro e he
  rw [Nat.mod_eq_of_lt (hnof e he)]

/-- Witness for C5: receiving `pW2` (sent by node 5, so the self-heard step
leaves the table alone) pushes the deadline of the (1, 99) entry forward by
exactly the packet airtime 100. -/
theorem claim_C5_receive_airtime_adjustment_witness :
    (ReliableRouter.selfHeardStep envW tblW4 pW2).1 = tblW4 ∧
    (ReliableRouter.shouldFilterReceived envW tblW4 pW2).pending =
      ((ReliableRouter.selfHeardStep envW tblW4 pW2).1).map fun e =>
        (e.1, { e.2 with
          nextTxMsec := e.2.nextTxMsec + envW.getPacketTime pW2 }) :=
  ⟨rfl, claim_C5_receive_airtime_adjustment envW tblW4 pW2
    (by
      intro e he
      rw [show (ReliableRouter.selfHeardStep envW tblW4 pW2).1 =
        [(⟨1, 99⟩, ⟨pW2, 3, 500⟩)] from rfl, List.mem_singleton] at he
      subst he
      decide)⟩

/-! ### Claim C6 -/

/-- Recognizer for re-emissions through the generic `Router::send` path. -/
def isRouterSend : Effect → Bool
  | Effect.routerSend _ => true
  | _ => false

/-- The self-heard step emits no generic re-send. -/
theorem selfHeard_filter_routerSend (env : Env) (pending : PendingTable)
    (p : MeshPacket) :
    List.filter isRouterSend (ReliableRouter.selfHeardStep env pending p).2 =
      [] := by
  unfold ReliableRouter.selfHeardStep
  split
  · dsimp only
    split
    · rfl
    · rfl
  · rfl

/-- C6: a received packet that is repeated (hop-start unset with hop-limit
equal to the full default relay budget, or hop-start equal to hop-limit),
already seen recently, unanswered by any module, and not addressed to this
node, causes exactly one clone to be re-emitted through the generic
`Router::send` path with the hop limit decremented by one, and nothing is
enrolled in the pending table; when any condition fails, nothing is
re-emitted.  (`hop_limit` is a `uint8_t`, hence the bound.) -/
theorem claim_C6_repeated_flood_reemission (env : Env)
    (pending : PendingTable) (p : MeshPacket) (hb : p.hop_limit < 256) :
    ((env.wasSeenRecently p false = true ∧ ReliableRouter.isRepeated p = true ∧
        env.currentReply = false ∧ p.«to» ≠ env.ourNode) →
      List.filter isRouterSend
          (ReliableRouter.shouldFilterReceived env pending p).effects =
        [Effect.routerSend { p with hop_limit := p.hop_limit - 1 }] ∧
      (∀ k, findPendingPacket
          (ReliableRouter.shouldFilterReceived env pending p).pending k ≠ none →
        findPendingPacket pending k ≠ none)) ∧
    (¬(env.wasSeenRecently p false = true ∧ ReliableRouter.isRepeated p = true ∧
        env.currentReply = false ∧ p.«to» ≠ env.ourNode) →
      List.filter isRouterSend
          (ReliableRouter.shouldFilterReceived env pending p).effects = []) := by
  constructor
  · intro hcond
    constructor
    · rw [shouldFilter_effects_eq, List.filter_append,
        selfHeard_filter_routerSend, List.nil_append]
      unfold ReliableRouter.repeatedFloodStep
      rw [if_pos hcond]
      have hge : 1 ≤ p.hop_limit := by
        have hrep := hcond.2.1
        unfold ReliableRouter.isRepeated at hrep
        by_cases hs : p.hop_start = 0
        · rw [if_pos hs] at hrep
          have h3 := of_decide_eq_true hrep
          rw [h3]
          decide
        · rw [if_neg hs] at hrep
          have h3 := of_decide_eq_true hrep
          omega
      have hdec : (p.hop_limit + 255) % 256 = p.hop_limit - 1 := by omega
      rw [hdec]
      rfl
    · intro k hk hnone
      apply hk
      rw [shouldFilter_pending_eq]
      exact findPendingPacket_recvAdjust_none env p _ k
        (findPendingPacket_selfHeard_none env pending p k hnone)
  · intro hcond
    rw [shouldFilter_effects_eq, List.filter_append,
      selfHeard_filter_routerSend, List.nil_append]
    unfold ReliableRouter.repeatedFloodStep
    rw [if_neg hcond]
    rfl

/-- A concrete repeated flood packet (hop-start = hop-limit = 3) not
addressed to node 1. -/
def pW6 : MeshPacket where
  «from» := 5
  «to» := 99
  id := 11
  hop_limit := 3
  hop_start := 3
  want_ack := false
  channel := 0
  which_payload_variant := PayloadVariant.decoded
  request_id := 0

/-- Witness for C6: the repeated packet `pW6` is re-emitted exactly once
with hop limit 2 through the generic path. -/
theorem claim_C6_repeated_flood_reemission_witness :
    pW6.hop_limit < 256 ∧
    List.filter isRouterSend
        (ReliableRouter.shouldFilterReceived envW tblW4 pW6).effects =
      [Effect.routerSend { pW6 with hop_limit := pW6.hop_limit - 1 }] :=
  ⟨by decide,
    ((claim_C6_repeated_flood_reemission envW tblW4 pW6 (by decide)).1
      ⟨rfl, by decide, rfl, by decide⟩).1⟩

/-! ### Claim C7 -/

/-- Recognizer for acknowledgment/negative-acknowledgment replies. -/
def isSendAckNak : Effect → Bool
  | Effect.sendAckNak _ _ _ _ _ _ => true
  | _ => false

/-- The remote-PKI-failure step emits no acknowledgment reply. -/
theorem pkiNodeInfo_filter_ackNak (env : Env) (p : MeshPacket)
    (c : Option Routing) :
    List.filter isSendAckNak (ReliableRouter.pkiNodeInfoStep env p c) = [] := by
  cases c with
  | none => rfl
  | some r =>
      unfold ReliableRouter.pkiNodeInfoStep
      dsimp only
      split
      · rfl
      · rfl

/-- Every effect the `want_ack` branch emits is an acknowledgment reply. -/
theorem wantAckReply_filter_self (env : Env) (p : MeshPacket) :
    List.filter isSendAckNak (ReliableRouter.wantAckReply env p) =
      ReliableRouter.wantAckReply env p := by
  unfold ReliableRouter.wantAckReply
  split
  · rfl
  · split
    · rfl
    · split
      · rfl
      · rfl

/-- When no other module has replied, the `want_ack` branch emits exactly
one reply. -/
theorem wantAckReply_length (env : Env) (p : MeshPacket)
    (hrep : env.currentReply = false) :
    (ReliableRouter.wantAckReply env p).length = 1 := by
  unfold ReliableRouter.wantAckReply
  rw [if_neg (by rw [hrep]; exact Bool.false_ne_true)]
  split
  · rfl
  · split
    · rfl
    · rfl

/-- C7: a received packet addressed to this node with `want_ack` set and no
module reply gets exactly one acknowledgment reply from `sniffReceived`,
classified no-error for a decodable payload, `PKI_UNKNOWN_PUBKEY` for an
encrypted payload on channel 0 from a peer whose public key is unknown, and
`NO_CHANNEL` in every other case — never silence. -/
theorem claim_C7_want_ack_reply_classification (env : Env)
    (pending : PendingTable) (p : MeshPacket) (c : Option Routing)
    (hto : p.«to» = env.ourNode) (hack : p.want_ack = true)
    (hrep : env.currentReply = false) :
    (List.filter isSendAckNak
      (ReliableRouter.sniffReceived env pending p c).effects).length = 1 ∧
    (p.which_payload_variant = PayloadVariant.decoded →
      List.filter isSendAckNak
          (ReliableRouter.sniffReceived env pending p c).effects =
        [Effect.sendAckNak RoutingError.NONE (getFrom env.ourNode p) p.id
          p.channel (some p.hop_start) (some p.hop_limit)]) ∧
    ((p.which_payload_variant = PayloadVariant.encrypted ∧ p.channel = 0 ∧
        (env.getMeshNodeKeySize p.«from» = none ∨
          env.getMeshNodeKeySize p.«from» = some 0)) →
      List.filter isSendAckNak
          (ReliableRouter.sniffReceived env pending p c).effects =
        [Effect.sendAckNak RoutingError.PKI_UNKNOWN_PUBKEY
          (getFrom env.ourNode p) p.id env.primaryIndex
          (some p.hop_start) (some p.hop_limit)]) ∧
    ((p.which_payload_variant ≠ PayloadVariant.decoded ∧
        ¬(p.which_payload_variant = PayloadVariant.encrypted ∧ p.channel = 0 ∧
          (env.getMeshNodeKeySize p.«from» = none ∨
            env.getMeshNodeKeySize p.«from» = some 0))) →
      List.filter isSendAckNak
          (ReliableRouter.sniffReceived env pending p c).effects =
        [Effect.sendAckNak RoutingError.NO_CHANNEL (getFrom env.ourNode p)
          p.id env.primaryIndex (some p.hop_start) (some p.hop_limit)]) := by
  have hmain : List.filter isSendAckNak
      (ReliableRouter.sniffReceived env pending p c).effects =
      ReliableRouter.wantAckReply env p := by
    rw [sniff_effects_eq env pending p c hto, if_pos hack]
    rw [List.filter_append, List.filter_append]
    rw [wantAckReply_filter_self, pkiNodeInfo_filter_ackNak]
    have hdel : List.filter isSendAckNak
        [if p.«to» = NODENUM_BROADCAST then Effect.floodSniff p c
         else Effect.unicastSniff p c] = [] := by
      split
      · rfl
      · rfl
    rw [hdel, List.append_nil, List.append_nil]
  refine ⟨?_, fun h1 => ?_, fun h2 => ?_, fun h3 => ?_⟩
  · rw [hmain]
    exact wantAckReply_length env p hrep
  · rw [hmain]
    unfold ReliableRouter.wantAckReply
    rw [if_neg (by rw [hrep]; exact Bool.false_ne_true), if_pos h1]
  · rw [hmain]
    unfold ReliableRouter.wantAckReply
    rw [if_neg (by rw [hrep]; exact Bool.false_ne_true)]
    rw [if_neg (by rw [h2.1]; simp)]
    rw [if_pos h2]
  · rw [hmain]
    unfold ReliableRouter.wantAckReply
    rw [if_neg (by rw [hrep]; exact Bool.false_ne_true), if_neg h3.1,
      if_neg h3.2]

/-- A concrete decodable `want_ack` packet addressed to node 1. -/
def pW7 : MeshPacket where
  «from» := 5
  «to» := 1
  id := 13
  hop_limit := 2
  hop_start := 3
  want_ack := true
  channel := 2
  which_payload_variant := PayloadVariant.decoded
  request_id := 0

/-- Witness for C7: the decodable packet `pW7` gets exactly one reply,
with no-error, on its own channel. -/
theorem claim_C7_want_ack_reply_classification_witness :
    pW7.«to» = envW.ourNode ∧ pW7.want_ack = true ∧
    envW.currentReply = false ∧
    (List.filter isSendAckNak
      (ReliableRouter.sniffReceived envW [] pW7 none).effects).length = 1 ∧
    List.filter isSendAckNak
        (ReliableRouter.sniffReceived envW [] pW7 none).effects =
      [Effect.sendAckNak RoutingError.NONE (getFrom envW.ourNode pW7) pW7.id
        pW7.channel (some pW7.hop_start) (some pW7.hop_limit)] :=
  ⟨rfl, rfl, rfl,
    (claim_C7_want_ack_reply_classification envW [] pW7 none rfl rfl rfl).1,
    (claim_C7_want_ack_reply_classification envW [] pW7 none rfl rfl rfl).2.1
      rfl⟩

/-! ### Claim C8 -/

/-- C8: when the delegated strategy rejects the packet, `send` returns that
strategy's result unchanged, and the pending entry created for a `want_ack`
packet is still present in the table afterwards. -/
theorem claim_C8_delegate_error_propagation (env : Env)
    (pending : PendingTable) (p : MeshPacket)
    (herr : (ReliableRouter.send env pending p).result ≠ 0) :
    (ReliableRouter.send env pending p).result =
      (if p.«to» = NODENUM_BROADCAST then
        env.floodSendResult (ReliableRouter.sentPacket env p)
      else env.unicastSendResult (ReliableRouter.sentPacket env p)) ∧
    (p.want_ack = true →
      findPendingPacket (ReliableRouter.send env pending p).pending
        ⟨getFrom env.ourNode p, p.id⟩ ≠ none) := by
  refine ⟨send_result_eq env pending p, fun hack => ?_⟩
  rw [send_find_new env pending p hack]
  exact Option.some_ne_none _

/-- Witness for C8: the flood strategy rejects `pW1` with code 2; `send`
returns 2 and the (1, 7) entry is still pending. -/
theorem claim_C8_delegate_error_propagation_witness :
    (ReliableRouter.send envW [] pW1).result ≠ 0 ∧ pW1.want_ack = true ∧
    ((ReliableRouter.send envW [] pW1).result =
      (if pW1.«to» = NODENUM_BROADCAST then
        envW.floodSendResult (ReliableRouter.sentPacket envW pW1)
      else envW.unicastSendResult (ReliableRouter.sentPacket envW pW1)) ∧
     findPendingPacket (ReliableRouter.send envW [] pW1).pending
       ⟨getFrom envW.ourNode pW1, pW1.id⟩ ≠ none) :=
  ⟨by decide, rfl,
    (claim_C8_delegate_error_propagation envW [] pW1 (by decide)).1,
    (claim_C8_delegate_error_propagation envW [] pW1 (by decide)).2 rfl⟩

/-! ### Claim C9 -/

/-- C9: a decoded routing-control packet addressed to this node reporting
`PKI_UNKNOWN_PUBKEY`, when this node's own public key is configured
(size 32), makes `sniffReceived` send this node's identity advertisement
back to the reporting peer — for every value of `want_ack` and of the
module-reply state, i.e. whether or not the `want_ack` branch was taken. -/
theorem claim_C9_pki_identity_advertisement (env : Env)
    (pending : PendingTable) (p : MeshPacket) (c : Option Routing)
    (r : Routing) (hto : p.«to» = env.ourNode) (hc : c = some r)
    (herr : r.error_reason = RoutingError.PKI_UNKNOWN_PUBKEY)
    (hdec : p.which_payload_variant = PayloadVariant.decoded)
    (hkey : env.ownerPublicKeySize = 32) :
    Effect.sendOurNodeInfo p.«from» false p.channel true ∈
      (ReliableRouter.sniffReceived env pending p c).effects := by
  rw [sniff_effects_eq env pending p c hto]
  subst hc
  have hstep : ReliableRouter.pkiNodeInfoStep env p (some r) =
      [Effect.sendOurNodeInfo p.«from» false p.channel true] := by
    unfold ReliableRouter.pkiNodeInfoStep
    dsimp only
    rw [if_pos ⟨hdec, herr, hkey⟩]
  rw [hstep]
  simp [List.mem_append]

/-- A routing-control payload reporting a remote PKI decrypt failure. -/
def rW9 : Routing := ⟨RoutingError.PKI_UNKNOWN_PUBKEY⟩

/-- Witness for C9: receiving `pW7` with a `PKI_UNKNOWN_PUBKEY` routing
payload makes node 1 advertise its identity to node 5. -/
theorem claim_C9_pki_identity_advertisement_witness :
    pW7.«to» = envW.ourNode ∧
    rW9.error_reason = RoutingError.PKI_UNKNOWN_PUBKEY ∧
    envW.ownerPublicKeySize = 32 ∧
    Effect.sendOurNodeInfo pW7.«from» false pW7.channel true ∈
      (ReliableRouter.sniffReceived envW [] pW7 (some rW9)).effects :=
  ⟨rfl, rfl, rfl,
    claim_C9_pki_identity_advertisement envW [] pW7 (some rW9) rW9
      rfl rfl rfl rfl rfl⟩

/-! ### Claim C10 -/

/-- C10: `send` mutates its argument in place — the caller's packet after
the call equals the hop-rewritten packet exactly when `want_ack` is set
with hop limit zero (and is untouched otherwise), the table's owned copy of
a `want_ack` packet is that same rewritten packet, and the packet handed to
the delegated strategy is that same rewritten packet. -/
theorem claim_C10_in_place_mutation (env : Env) (pending : PendingTable)
    (p : MeshPacket) :
    (ReliableRouter.send env pending p).packet =
      (if p.want_ack = true ∧ p.hop_limit = 0 then
        { p with hop_limit := env.hopLimitDefault }
      else p) ∧
    (p.want_ack = true →
      findPendingPacket (ReliableRouter.send env pending p).pending
        ⟨getFrom env.ourNode p, p.id⟩ =
      some ⟨(ReliableRouter.send env pending p).packet,
        env.maxRetransmissions,
        env.initialDeadline (ReliableRouter.send env pending p).packet⟩) ∧
    (ReliableRouter.send env pending p).effects =
      [if p.«to» = NODENUM_BROADCAST then
        Effect.floodSend (ReliableRouter.send env pending p).packet
      else Effect.unicastSend (ReliableRouter.send env pending p).packet] := by
  refine ⟨?_, fun hack => ?_, ?_⟩
  · rw [send_packet_eq]
    rfl
  · rw [send_packet_eq, send_find_new env pending p hack]
  · rw [send_effects_eq, send_packet_eq]

/-- Witness for C10 at the reliable zero-hop packet `pW1`. -/
theorem claim_C10_in_place_mutation_witness :
    pW1.want_ack = true ∧
    ((ReliableRouter.send envW [] pW1).packet =
      (if pW1.want_ack = true ∧ pW1.hop_limit = 0 then
        { pW1 with hop_limit := envW.hopLimitDefault }
      else pW1) ∧
     findPendingPacket (ReliableRouter.send envW [] pW1).pending
        ⟨getFrom envW.ourNode pW1, pW1.id⟩ =
      some ⟨(ReliableRouter.send envW [] pW1).packet,
        envW.maxRetransmissions,
        envW.initialDeadline (ReliableRouter.send envW [] pW1).packet⟩ ∧
     (ReliableRouter.send envW [] pW1).effects =
      [if pW1.«to» = NODENUM_BROADCAST then
        Effect.floodSend (ReliableRouter.send envW [] pW1).packet
      else Effect.unicastSend (ReliableRouter.send envW [] pW1).packet]) :=
  ⟨rfl,
    (claim_C10_in_place_mutation envW [] pW1).1,
    (claim_C10_in_place_mutation envW [] pW1).2.1 rfl,
    (claim_C10_in_place_mutation envW [] pW1).2.2⟩

end Meshtastic
